import Mathlib

/-!
Verification development for the mylocation-app repository.

The repository is a React Native / Expo application with two authored
pieces of logic:

* `src/components/InternetConnectionCheck.tsx` — the connectivity monitor:
  a two-stage check (`NetInfo.fetch` interface query, then an aborted-at-5s
  `fetch` probe against `https://www.google.com`), re-run every 30 s, on
  NetInfo change events, and on a button press.
* `src/app/index.tsx` — the screen controller: permission request,
  one-shot position fetch, map + info-panel rendering, a tracking
  subscription started by `Location.watchPositionAsync`, and its own
  NetInfo-driven connectivity indicator with restored/lost alerts.

The embedding below models the JavaScript single-threaded, event-driven
execution: code between two `await` suspension points runs without
interleaving, so one such segment is one atomic step.  React state setters
(`setIsConnected`, `setLastChecked`, ...) are modelled as record updates
applied by that step.  Machine floats only occur here as decimal literals
that are immediately formatted with `toFixed`; they are modelled as exact
decimal fixed-point numbers, which agrees with IEEE double behaviour at
every precision used by the program (6 and 0 fractional digits on the
inputs considered).
-/

namespace MyLocationApp

/-- JavaScript truthiness of a nullable boolean (`boolean | null`): only
`true` is truthy, `false` and `null` are falsy.  Used for every
`if (x.isConnected)` test in the sources. -/
def truthy : Option Bool → Bool
  | some true => true
  | _ => false

/-- Outcome of the stage-2 reachability probe (the `fetch` to
`https://www.google.com` in `checkConnection`, lines 40-56).
`response ok` means the promise resolved and `response.ok = ok`;
`netError` means the promise rejected with a transport error;
`timeout` means the 5000 ms `setTimeout` fired `controller.abort()` and
the promise rejected with an abort error. -/
inductive ProbeResult
  | response (ok : Bool)
  | netError
  | timeout
deriving DecidableEq

/-- Boolean the monitor ends up storing for a probe outcome: the success
path stores `response.ok` (line 56), the catch branch stores `false`
(line 60). -/
def probeBool : ProbeResult → Bool
  | ProbeResult.response ok => ok
  | ProbeResult.netError => false
  | ProbeResult.timeout => false

/-- State of the connectivity monitor component
(`InternetConnectionCheck.tsx`, lines 19-21): `isConnected` is
`boolean | null` (`none` renders as the Unknown status), `isChecking` the
in-progress flag, `lastChecked` the `Date | null` timestamp (modelled as
`Option Nat`). -/
structure MonitorState where
  isConnected : Option Bool
  isChecking : Bool
  lastChecked : Option Nat
deriving DecidableEq

/-- Initial monitor state: all three `useState` initialisers
(`null`, `false`, `null`). -/
def initMonitor : MonitorState :=
  { isConnected := none, isChecking := false, lastChecked := none }

/-- Result of one whole run of `checkConnection` (lines 24-65): the
component state after the check completed, plus whether the stage-2
probe was issued at all. -/
structure CheckOutcome where
  state : MonitorState
  probeIssued : Bool
deriving DecidableEq

/-- Whole-check model of `checkConnection` (lines 24-65), for claims about
a single completed check.  `ni` is the `isConnected` field of the
`NetInfo.fetch()` result, `pr` the probe outcome, `t` the time of the last
`new Date()` executed by the run.  If the interface query is falsy the
function returns early (lines 31-36) and the probe is never issued;
otherwise the probe runs and its outcome is stored.  On every path the
`finally` block (lines 61-64) leaves `isChecking = false` and
`lastChecked = some t`. -/
def checkConnection (ni : Option Bool) (pr : ProbeResult) (t : Nat)
    (s : MonitorState) : CheckOutcome :=
  if truthy ni then
    { state := { s with
        isConnected := some (probeBool pr)
        lastChecked := some t
        isChecking := false },
      probeIssued := true }
  else
    { state := { s with
        isConnected := some false
        lastChecked := some t
        isChecking := false },
      probeIssued := false }

/-- Timeout bound of the stage-2 probe: `setTimeout(() =>
controller.abort(), 5000)` on line 41. -/
def timeoutMs : Nat := 5000

/-- Probe outcome as a function of how long the request took: if it did
not complete within `timeoutMs`, the abort timer fires and the outcome is
`timeout`; otherwise the outcome is the response (`some ok`) or a
transport error (`none`). -/
def probeOutcomeAt (elapsedMs : Nat) (resp : Option Bool) : ProbeResult :=
  if timeoutMs ≤ elapsedMs then ProbeResult.timeout
  else match resp with
    | some ok => ProbeResult.response ok
    | none => ProbeResult.netError

/-- Atomic steps of the monitor, at the granularity of the code segments
between `await` suspension points.  `start id` is the synchronous prefix
of a call to `checkConnection` (line 25, `setIsChecking(true)`), run for
the mount check, the 30 s timer, the button press, or a truthy NetInfo
event (line 82).  `netinfoResult id ni t` is the continuation after
`await NetInfo.fetch()` (lines 28-36): on a falsy interface it completes
the check; on a truthy one it only launches the probe.  `probeResult id
pr t` is the continuation after the probe settles (lines 55-64).
`netEvent ni t` is the NetInfo listener body (lines 75-84): falsy events
complete immediately without a probe; truthy events call
`checkConnection`, whose own segments appear as separate actions.
The `id` parameters are trace bookkeeping only: the code itself carries
no check identifier, which is exactly what the race claims are about. -/
inductive CheckAction
  | start (id : Nat)
  | netinfoResult (id : Nat) (ni : Option Bool) (t : Nat)
  | probeResult (id : Nat) (pr : ProbeResult) (t : Nat)
  | netEvent (ni : Option Bool) (t : Nat)
deriving DecidableEq

/-- Effect of one atomic step on the monitor state, transcribed from the
source segment by segment.  Note that `probeResult` stores its outcome
unconditionally: the code has no staleness guard. -/
def applyAction (a : CheckAction) (s : MonitorState) : MonitorState :=
  match a with
  | CheckAction.start _ => { s with isChecking := true }
  | CheckAction.netinfoResult _ ni t =>
      if truthy ni then s
      else { s with
          isConnected := some false
          lastChecked := some t
          isChecking := false }
  | CheckAction.probeResult _ pr t =>
      { s with
          isConnected := some (probeBool pr)
          lastChecked := some t
          isChecking := false }
  | CheckAction.netEvent ni t =>
      if truthy ni then s
      else { s with isConnected := some false, lastChecked := some t }

/-- Run a sequence of atomic steps. -/
def runTrace (tr : List CheckAction) (s : MonitorState) : MonitorState :=
  tr.foldl (fun st a => applyAction a st) s

/-- Timestamp parameter of a step, when it has one (`start` executes no
`new Date()`). -/
def actionTime : CheckAction → Option Nat
  | CheckAction.start _ => none
  | CheckAction.netinfoResult _ _ t => some t
  | CheckAction.probeResult _ _ t => some t
  | CheckAction.netEvent _ t => some t

/-- Whether a step completes a connectivity check: a falsy interface
query (early return), a settled probe, or a falsy NetInfo event. -/
def completesCheck : CheckAction → Bool
  | CheckAction.start _ => false
  | CheckAction.netinfoResult _ ni _ => !truthy ni
  | CheckAction.probeResult _ _ _ => true
  | CheckAction.netEvent ni _ => !truthy ni

/-- Well-formedness of an interleaved trace: each check id is started at
most once, its interface-query continuation follows its start, and its
probe continuation exists only if the interface query was truthy (the
only branch that issues the probe) and fires at most once.  NetInfo
events may occur anywhere. -/
def validFrom (started : List Nat) (fetched : List (Nat × Bool))
    (probed : List Nat) : List CheckAction → Bool
  | [] => true
  | CheckAction.start id :: rest =>
      !started.contains id && validFrom (id :: started) fetched probed rest
  | CheckAction.netinfoResult id ni _ :: rest =>
      started.contains id && !(fetched.any (fun q => q.fst == id)) &&
        validFrom started ((id, truthy ni) :: fetched) probed rest
  | CheckAction.probeResult id _ _ :: rest =>
      fetched.contains (id, true) && !probed.contains id &&
        validFrom started fetched (id :: probed) rest
  | CheckAction.netEvent _ _ :: rest => validFrom started fetched probed rest

/-- Well-formed trace, starting from no live checks. -/
def validTrace (tr : List CheckAction) : Bool := validFrom [] [] [] tr

/-- Interleaving used for the C1 race: check 1 starts and passes its
interface query (its probe is now in flight); check 2 starts and its
interface query reports no active interface, so check 2 completes and
sets the status to disconnected. -/
def c1Pre : List CheckAction :=
  [CheckAction.start 1, CheckAction.netinfoResult 1 (some true) 10,
   CheckAction.start 2, CheckAction.netinfoResult 2 (some false) 20]

/-- Continuation of `c1Pre`: the probe of the older check 1 now resolves
successfully, after the newer check 2 already completed. -/
def c1Race : List CheckAction :=
  c1Pre ++ [CheckAction.probeResult 1 (ProbeResult.response true) 30]

/-- Exact decimal number, `num / 10 ^ scale`.  The coordinates the claims
quote are decimal literals; at the 6- and 0-digit precisions the program
formats with, the IEEE doubles holding them format identically. -/
structure Dec where
  num : Int
  scale : Nat
deriving DecidableEq

/-- Fraction part of a fixed-point rendering, left-padded with zeros to
`f` digits. -/
def decPad (f : Nat) (frac : Nat) : String :=
  String.mk (List.replicate (f - (Nat.toDigits 10 frac).length) '0') ++
    Nat.repr frac

/-- Model of JavaScript `Number.prototype.toFixed(f)`: the sign of the
input, then the magnitude rounded to `f` fractional digits, half away
from zero, with a decimal point exactly when `f > 0`. -/
def jsToFixed (d : Dec) (f : Nat) : String :=
  let m := d.num.natAbs
  let n : Nat :=
    if d.scale ≤ f then m * 10 ^ (f - d.scale)
    else
      let p := 10 ^ (d.scale - f)
      (m + p / 2) / p
  let ip := n / 10 ^ f
  let sign := if d.num < 0 then "-" else ""
  if f = 0 then sign ++ Nat.repr ip
  else sign ++ Nat.repr ip ++ "." ++ decPad f (n % 10 ^ f)

/-- Position delivered by the location provider (`LocationObject.coords`
in `src/app/index.tsx`, lines 9-15). -/
structure Position where
  latitude : Dec
  longitude : Dec
  accuracy : Option Dec
deriving DecidableEq

/-- Map region (`react-native-maps` `Region`). -/
structure Region where
  latitude : Dec
  longitude : Dec
  latitudeDelta : Dec
  longitudeDelta : Dec
deriving DecidableEq

/-- Screen-controller state relevant to the location flow
(`src/app/index.tsx`, lines 18-21). -/
structure AppLocState where
  location : Option Position
  errorMsg : Option String
  loading : Bool
  region : Option Region
deriving DecidableEq

/-- Initial controller state (`useState` initialisers: `null`, `null`,
`true`, `null`). -/
def initAppLoc : AppLocState :=
  { location := none, errorMsg := none, loading := true, region := none }

/-- Result of `Location.getCurrentPositionAsync` as seen by the caller. -/
inductive FetchResult
  | ok (p : Position)
  | error (msg : String)
deriving DecidableEq

/-- Result of the mount effect: the controller state it leaves behind and
whether a position fetch was attempted. -/
structure InitOutcome where
  state : AppLocState
  fetchAttempted : Bool
deriving DecidableEq

/-- Model of the mount effect of `LocationApp` (`src/app/index.tsx`,
lines 57-89).  The effect has an empty dependency list, so it runs
exactly once per screen instance.  On denial it sets the error message
and ends loading without ever calling `getCurrentPositionAsync`; on
grant it fetches, then either stores the position and a 0.01-delta
region or stores the error message, and ends loading in `finally`. -/
def initLocationFlow (perm : Bool) (fr : FetchResult) : InitOutcome :=
  if perm then
    match fr with
    | FetchResult.ok p =>
        { state := { location := some p, errorMsg := none, loading := false,
                     region := some { latitude := p.latitude,
                                      longitude := p.longitude,
                                      latitudeDelta := { num := 1, scale := 2 },
                                      longitudeDelta := { num := 1, scale := 2 } } },
          fetchAttempted := true }
    | FetchResult.error m =>
        { state := { location := none,
                     errorMsg := some ("Error al obtener la ubicación: " ++ m),
                     loading := false, region := none },
          fetchAttempted := true }
  else
    { state := { location := none,
                 errorMsg := some "Se requiere permiso para acceder a la ubicación",
                 loading := false, region := none },
      fetchAttempted := false }

/-- Markers placed inside the `MapView` when a location exists: exactly
the one `Marker` of lines 184-192, at the location coordinates. -/
def renderMarkers (p : Position) : List (Dec × Dec) :=
  [(p.latitude, p.longitude)]

/-- Internet line of the info panel (line 219): JavaScript truthiness of
the nullable connectivity flag selects the label. -/
def internetLine (conn : Option Bool) : String :=
  "Internet: " ++ (if truthy conn then "Conectado" else "Sin conexión")

/-- Info panel of the map screen (`src/app/index.tsx`, lines 208-221).
When `accuracy` is null, `accuracy?.toFixed(0)` is `undefined` and JSX
renders it as the empty string. -/
def infoPanel (p : Position) (conn : Option Bool) : List String :=
  ["Latitud: " ++ jsToFixed p.latitude 6,
   "Longitud: " ++ jsToFixed p.longitude 6,
   "Precisión: ±" ++
     (match p.accuracy with
      | some a => jsToFixed a 0
      | none => "") ++ " metros",
   internetLine conn]

/-- Screens the component function can return. -/
inductive Screen
  | loadingView
  | errorView (msg : String)
  | mapView (markers : List (Dec × Dec)) (info : List String)
  | noLocationView
deriving DecidableEq

/-- Render function of `LocationApp` (`src/app/index.tsx`, lines
139-230): the loading view while `loading`, else the blocking error view
when `errorMsg` is set, else the map with its single marker and info
panel when a location exists, else the no-location fallback. -/
def render (s : AppLocState) (conn : Option Bool) : Screen :=
  if s.loading then Screen.loadingView
  else
    match s.errorMsg with
    | some m => Screen.errorView m
    | none =>
        match s.location with
        | some p => Screen.mapView (renderMarkers p) (infoPanel p conn)
        | none => Screen.noLocationView

/-- User actions the screen exposes, each only reachable through a button
of the rendered view. -/
inductive UserAction
  | centerMap
  | startTracking
deriving DecidableEq

/-- Buttons present on each screen: only the map view has any (lines
195-206); the loading, error and no-location views render text only. -/
def actionsAvailable : Screen → List UserAction
  | Screen.mapView _ _ => [UserAction.centerMap, UserAction.startTracking]
  | _ => []

/-- Tracking subscriptions created by the screen instance: ids of the
subscriptions currently live, and the id the next
`Location.watchPositionAsync` call will create. -/
structure TrackingState where
  liveSubs : List Nat
  nextId : Nat
deriving DecidableEq

/-- Result of one call to `startLocationTracking`: the subscription state
afterwards and the title of the alert shown. -/
structure TrackOutcome where
  state : TrackingState
  alertTitle : Option String
deriving DecidableEq

/-- Model of `startLocationTracking` (`src/app/index.tsx`, lines
102-136).  Without permission it alerts and changes nothing.  With
permission it calls `Location.watchPositionAsync`, which creates a new
live subscription; the returned subscription object is not stored in any
ref or state and no `remove()` call exists anywhere in the file (the
mount effects return no tracking cleanup either), so no existing
subscription is ever stopped. -/
def startLocationTracking (perm : Bool) (s : TrackingState) : TrackOutcome :=
  if perm then
    { state := { liveSubs := s.liveSubs ++ [s.nextId], nextId := s.nextId + 1 },
      alertTitle := some "Seguimiento activado" }
  else
    { state := s, alertTitle := some "Permiso denegado" }

/-- Alerts the connectivity listener of `LocationApp` can show
(lines 45-49). -/
inductive ConnAlert
  | restored
  | lost
deriving DecidableEq

/-- Model of the NetInfo listener of `LocationApp` (`src/app/index.tsx`,
lines 42-50).  `prev` is the stored `isConnected` value when the event
arrives (the effect re-subscribes on every `isConnected` change, and in
the single-threaded model the re-render flushes before the next event,
so the captured value is the current one); `ev` is whether the event
reports an active interface.  The handler stores the event value, then
alerts on `state.isConnected && !isConnected` respectively
`!state.isConnected && isConnected`, with JavaScript truthiness. -/
def connListener (prev : Option Bool) (ev : Bool) :
    Option Bool × Option ConnAlert :=
  (some ev,
   if ev && !truthy prev then some ConnAlert.restored
   else if !ev && truthy prev then some ConnAlert.lost
   else none)

/-- Model of the mount-time `checkInternetConnection` (`src/app/index.tsx`,
lines 26-37): stores the raw NetInfo value and shows the offline
advisory exactly when that value is falsy.  No probe is consulted. -/
def checkInternetConnection (ni : Option Bool) : Option Bool × Bool :=
  (ni, !truthy ni)

/-- Position of the C9 scenario: latitude 40.4168, longitude -3.7038,
accuracy 5. -/
def position40 : Position :=
  { latitude := { num := 404168, scale := 4 },
    longitude := { num := -37038, scale := 4 },
    accuracy := some { num := 5, scale := 0 } }

end MyLocationApp

namespace MyLocationApp

/-- Helper: every atomic monitor step maps a known (non-null) status to a
known status — each branch of `applyAction` either leaves `isConnected`
unchanged or writes `some _`. -/
theorem applyAction_preserves_known (a : CheckAction) (s : MonitorState)
    (h : s.isConnected ≠ none) : (applyAction a s).isConnected ≠ none := by
  cases a with
  | start id => simpa [applyAction] using h
  | netinfoResult id ni t =>
      cases hni : truthy ni <;> simp [applyAction, hni, h]
  | probeResult id pr t => simp [applyAction]
  | netEvent ni t =>
      cases hni : truthy ni <;> simp [applyAction, hni, h]

/-- Claim C1, counterexample.  The claim states that a stage-2 probe of an
earlier check resolving after a newer check has started must not alter the
status set by the newer check.  In the code `checkConnection` carries no
check identifier and its probe continuation stores its result
unconditionally, so the claim fails: in the well-formed interleaving
`c1Race`, check 2 (the newer check) completes with status disconnected,
and then the late probe of the older check 1 resolves successfully and
flips the status to connected. -/
theorem c1_late_probe_counterexample :
    validTrace c1Race = true ∧
    (runTrace c1Pre initMonitor).isConnected = some false ∧
    (runTrace c1Race initMonitor).isConnected = some true := by decide

/-- Claim C1, amended.  The code implements last-resolved-write-wins, not
last-started-check-wins: whatever happened before, the probe continuation
of any check overwrites the connectivity status with its own outcome
(`response.ok` on success, `false` on error or timeout). -/
theorem c1_last_resolved_write_wins (tr : List CheckAction) (id : Nat)
    (pr : ProbeResult) (t : Nat) :
    (runTrace (tr ++ [CheckAction.probeResult id pr t]) initMonitor).isConnected
      = some (probeBool pr) := by
  simp [runTrace, List.foldl_append, applyAction]

/-- Claim C2 (code bug).  Evaluating the embedded `startLocationTracking`
at the failing input: with permission granted and one subscription already
live, a second press leaves two live subscriptions — the code never stores
the handle returned by `Location.watchPositionAsync` and never calls
`remove()`, so the prior subscription is not stopped. -/
theorem c2_double_start_two_live_subscriptions :
    (startLocationTracking true
        (startLocationTracking true { liveSubs := [], nextId := 0 }).state).state.liveSubs
      = [0, 1] ∧
    ((startLocationTracking true
        (startLocationTracking true { liveSubs := [], nextId := 0 }).state).state.liveSubs).length
      = 2 := by decide

/-- Claim C3.  Whenever the `NetInfo.fetch` interface query reports no
active interface (falsy `isConnected`), `checkConnection` returns from its
early branch: the stage-2 probe is never issued and the stored status is
disconnected, irrespective of what the probe would have answered. -/
theorem c3_inactive_interface_skips_probe (ni : Option Bool)
    (pr : ProbeResult) (t : Nat) (s : MonitorState)
    (h : truthy ni = false) :
    (checkConnection ni pr t s).probeIssued = false ∧
    (checkConnection ni pr t s).state.isConnected = some false := by
  simp [checkConnection, h]

/-- Witness for C3 at a concrete input: the interface query reports
`false`, the probe would have succeeded, and still no probe is issued and
the status becomes disconnected. -/
theorem c3_inactive_interface_skips_probe_witness :
    truthy (some false) = false ∧
    ((checkConnection (some false) (ProbeResult.response true) 0 initMonitor).probeIssued = false ∧
     (checkConnection (some false) (ProbeResult.response true) 0 initMonitor).state.isConnected = some false) :=
  ⟨by decide,
   c3_inactive_interface_skips_probe (some false) (ProbeResult.response true) 0
     initMonitor (by decide)⟩

/-- Claim C4.  A probe that does not complete within the 5000 ms bound is
aborted and lands in the same catch branch as a transport error: the whole
check outcome (state and probe flag) is identical to the network-failure
outcome, and the stored status is disconnected.  `MonitorState` has no
error field, so no distinct timeout state exists. -/
theorem c4_timeout_equals_network_failure (elapsed : Nat)
    (resp : Option Bool) (t : Nat) (s : MonitorState)
    (h : timeoutMs ≤ elapsed) :
    checkConnection (some true) (probeOutcomeAt elapsed resp) t s =
      checkConnection (some true) ProbeResult.netError t s ∧
    (checkConnection (some true) (probeOutcomeAt elapsed resp) t s).state.isConnected
      = some false := by
  simp [probeOutcomeAt, h, checkConnection, truthy, probeBool]

/-- Witness for C4 at a concrete input: a probe taking 6000 ms (over the
5000 ms bound) whose response would have been successful still yields the
network-failure outcome. -/
theorem c4_timeout_equals_network_failure_witness :
    timeoutMs ≤ 6000 ∧
    (checkConnection (some true) (probeOutcomeAt 6000 (some true)) 7 initMonitor =
       checkConnection (some true) ProbeResult.netError 7 initMonitor ∧
     (checkConnection (some true) (probeOutcomeAt 6000 (some true)) 7 initMonitor).state.isConnected
       = some false) :=
  ⟨by decide,
   c4_timeout_equals_network_failure 6000 (some true) 7 initMonitor (by decide)⟩

/-- Claim C5.  The restored/lost alert of the screen controller fires
exactly on the transitions Unknown to Connected, Connected to
Disconnected and Disconnected to Connected; the restored alert fires
exactly when the event is truthy and the stored status was not connected,
the lost alert exactly when the event is falsy and the stored status was
connected, and no alert fires on an event confirming the stored status. -/
theorem c5_alert_exactly_on_status_change (prev : Option Bool) (ev : Bool) :
    ((connListener prev ev).snd.isSome ↔
      ((prev = none ∧ ev = true) ∨ (prev = some true ∧ ev = false) ∨
       (prev = some false ∧ ev = true))) ∧
    ((connListener prev ev).snd = some ConnAlert.restored ↔
      (ev = true ∧ prev ≠ some true)) ∧
    ((connListener prev ev).snd = some ConnAlert.lost ↔
      (ev = false ∧ prev = some true)) ∧
    (prev = some ev → (connListener prev ev).snd = none) := by
  cases prev with
  | none => cases ev <;> decide
  | some b => cases b <;> cases ev <;> decide

/-- Witness for C5 at a concrete input: a connected event confirming an
already connected status shows no alert. -/
theorem c5_alert_exactly_on_status_change_witness :
    (some true : Option Bool) = some true ∧
    (connListener (some true) true).snd = none :=
  ⟨rfl, (c5_alert_exactly_on_status_change (some true) true).2.2.2 rfl⟩

/-- Claim C6.  When the permission request returns denied, the mount
effect ends loading, stores the blocking error message, attempts no
position fetch and leaves no location; the component then renders the
error view — not the map — and that view exposes no buttons, so no user
action (and, the effect running exactly once, no automatic retry) can
fetch a position or render the map for the rest of the session. -/
theorem c6_denied_permission_terminal_error (fr : FetchResult)
    (conn : Option Bool) :
    (initLocationFlow false fr).fetchAttempted = false ∧
    (initLocationFlow false fr).state.loading = false ∧
    (initLocationFlow false fr).state.errorMsg =
      some "Se requiere permiso para acceder a la ubicación" ∧
    (initLocationFlow false fr).state.location = none ∧
    render (initLocationFlow false fr).state conn =
      Screen.errorView "Se requiere permiso para acceder a la ubicación" ∧
    actionsAvailable (render (initLocationFlow false fr).state conn) = [] := by
  simp [initLocationFlow, render, actionsAvailable]

/-- Claim C7.  Status and timestamp are updated by the same atomic step:
any step that changes `isConnected` also writes `lastChecked` with that
same step timestamp, and the two check-completing steps (settled probe,
falsy interface query) each write status, timestamp and the checking flag
in one state update, so no state with one field updated but not the other
is observable between steps. -/
theorem c7_status_and_timestamp_update_atomically (a : CheckAction)
    (s : MonitorState) :
    ((applyAction a s).isConnected ≠ s.isConnected →
      ∃ t, actionTime a = some t ∧ (applyAction a s).lastChecked = some t) ∧
    (∀ id pr t, applyAction (CheckAction.probeResult id pr t) s =
      { s with
          isConnected := some (probeBool pr)
          lastChecked := some t
          isChecking := false }) ∧
    (∀ id ni t, truthy ni = false →
      applyAction (CheckAction.netinfoResult id ni t) s =
        { s with
            isConnected := some false
            lastChecked := some t
            isChecking := false }) := by
  refine ⟨?_, ?_, ?_⟩
  · intro h
    cases a with
    | start id => simp [applyAction] at h
    | netinfoResult id ni t =>
        cases hni : truthy ni with
        | false => exact ⟨t, rfl, by simp [applyAction, hni]⟩
        | true => simp [applyAction, hni] at h
    | probeResult id pr t => exact ⟨t, rfl, by simp [applyAction]⟩
    | netEvent ni t =>
        cases hni : truthy ni with
        | false => exact ⟨t, rfl, by simp [applyAction, hni]⟩
        | true => simp [applyAction, hni] at h
  · intro id pr t; rfl
  · intro id ni t h; simp [applyAction, h]

/-- Witness for C7 at a concrete input: a successful probe step changes
the status of the initial state, and the same step stamps `lastChecked`
with its own time. -/
theorem c7_status_and_timestamp_update_atomically_witness :
    ∃ t, actionTime (CheckAction.probeResult 0 (ProbeResult.response true) 3) = some t ∧
      (applyAction (CheckAction.probeResult 0 (ProbeResult.response true) 3) initMonitor).lastChecked = some t :=
  (c7_status_and_timestamp_update_atomically
      (CheckAction.probeResult 0 (ProbeResult.response true) 3) initMonitor).1
    (by decide)

/-- Claim C8.  The Unknown status (`isConnected = none`) holds only
initially: the initial state is Unknown, every sequence of steps
preserves a non-Unknown status once reached, and every step that
completes a check leaves a non-Unknown status. -/
theorem c8_unknown_never_reentered :
    initMonitor.isConnected = none ∧
    (∀ (tr : List CheckAction) (s : MonitorState),
      s.isConnected ≠ none → (runTrace tr s).isConnected ≠ none) ∧
    (∀ (a : CheckAction) (s : MonitorState),
      completesCheck a = true → (applyAction a s).isConnected ≠ none) := by
  refine ⟨rfl, ?_, ?_⟩
  · intro tr
    induction tr with
    | nil => intro s h; simpa [runTrace] using h
    | cons a rest ih =>
        intro s h
        have h2 := applyAction_preserves_known a s h
        simpa [runTrace, List.foldl_cons] using ih (applyAction a s) h2
  · intro a s h
    cases a with
    | start id => simp [completesCheck] at h
    | netinfoResult id ni t =>
        simp [completesCheck] at h
        simp [applyAction, h]
    | probeResult id pr t => simp [applyAction]
    | netEvent ni t =>
        simp [completesCheck] at h
        simp [applyAction, h]

/-- Witness for C8 at concrete inputs: a connected status survives a
truthy NetInfo event, and a settled probe leaves a non-Unknown status
from the initial state. -/
theorem c8_unknown_never_reentered_witness :
    ((MonitorState.mk (some true) false (some 1)).isConnected ≠ none ∧
     (runTrace [CheckAction.netEvent (some false) 3]
        (MonitorState.mk (some true) false (some 1))).isConnected ≠ none) ∧
    (completesCheck (CheckAction.probeResult 0 (ProbeResult.response true) 4) = true ∧
     (applyAction (CheckAction.probeResult 0 (ProbeResult.response true) 4) initMonitor).isConnected ≠ none) :=
  ⟨⟨by decide,
    c8_unknown_never_reentered.2.1 [CheckAction.netEvent (some false) 3]
      (MonitorState.mk (some true) false (some 1)) (by decide)⟩,
   ⟨by decide,
    c8_unknown_never_reentered.2.2 (CheckAction.probeResult 0 (ProbeResult.response true) 4)
      initMonitor (by decide)⟩⟩

/-- Claim C9.  With permission granted and a successful fetch returning
latitude 40.4168, longitude -3.7038 and accuracy 5, the mount effect
stores that position and the component renders the map view with exactly
one marker at that coordinate and the info panel lines
Latitud: 40.416800, Longitud: -3.703800, Precisión: ±5 metros. -/
theorem c9_scenario_madrid_render :
    (initLocationFlow true (FetchResult.ok position40)).state.location = some position40 ∧
    render (initLocationFlow true (FetchResult.ok position40)).state (some true) =
      Screen.mapView [(position40.latitude, position40.longitude)]
        ["Latitud: 40.416800", "Longitud: -3.703800", "Precisión: ±5 metros",
         "Internet: Conectado"] ∧
    (renderMarkers position40).length = 1 := by decide

/-- Claim C10.  The connectivity value the screen controller stores (and
shows as the Internet line of the info panel) comes exclusively from the
stage-1 NetInfo signal: the mount check stores the raw fetch value and
the listener stores the raw event value.  Consequently, in an
environment whose interface is active but whose stage-2 probe fails, the
screen shows Internet: Conectado while the connectivity monitor
component ends the same situation with status disconnected. -/
theorem c10_screen_indicator_stage1_only :
    (∀ (prev : Option Bool) (ev : Bool), (connListener prev ev).fst = some ev) ∧
    (∀ ni : Option Bool, (checkInternetConnection ni).fst = ni) ∧
    internetLine (some true) = "Internet: Conectado" ∧
    (checkConnection (some true) ProbeResult.netError 0 initMonitor).state.isConnected
      = some false := by
  exact ⟨fun prev ev => rfl, fun ni => rfl, by decide, by decide⟩

end MyLocationApp
